import Mathlib

/-!
Shallow embedding of `src/examples/experimental/gaussian_splats.py`:
the two Gaussian-splat file readers (`load_splat_file`, `load_ply_file`),
the covariance reconstruction they share, and the load loop of `main`.
Machine floating-point values are modelled as real numbers; byte buffers
as lists of naturals (one per byte, each in `[0, 255]`).
-/

namespace GaussianSplats

/-- Canonical splat collection: the `SplatFile` TypedDict of the source
(`centers`, `rgbs`, `opacities`, `covariances`), each an ordered list. -/
structure SplatFile where
  centers : List (Fin 3 → ℝ)
  rgbs : List (Fin 3 → ℝ)
  opacities : List ℝ
  covariances : List (Matrix (Fin 3) (Fin 3) ℝ)

/-- Loading failures of the readers. `MalformedFile` is the
record-alignment check `assert len(splat_buffer) % bytes_per_gaussian == 0`
of the source (the spec's `MalformedFile`). `ValueError` is numpy's
failure on zero records: `Rs = onp.array([...])` built from an empty
rotation list has shape `(0,)`, and
`onp.einsum("nij,njk,nlk->nil", Rs, ...)` rejects a 1-dimensional
operand, so neither reader can return an empty collection. -/
inductive LoadError where
  | MalformedFile
  | ValueError
deriving DecidableEq

/-- Modelled from the spec: `viser.transforms.SO3.as_matrix`, used as
`tf.SO3(wxyz).as_matrix()` in the source, is repository code that is not
under `src/`; the spec (§4.3) prescribes the standard
quaternion-to-rotation-matrix conversion for a scalar-first quaternion
`q = (w, x, y, z)`. -/
noncomputable def quatToMatrix (q : Fin 4 → ℝ) : Matrix (Fin 3) (Fin 3) ℝ :=
  Matrix.of
    ![![1 - 2 * (q 2 ^ 2 + q 3 ^ 2), 2 * (q 1 * q 2 - q 0 * q 3), 2 * (q 1 * q 3 + q 0 * q 2)],
      ![2 * (q 1 * q 2 + q 0 * q 3), 1 - 2 * (q 1 ^ 2 + q 3 ^ 2), 2 * (q 2 * q 3 - q 0 * q 1)],
      ![2 * (q 1 * q 3 - q 0 * q 2), 2 * (q 2 * q 3 + q 0 * q 1), 1 - 2 * (q 1 ^ 2 + q 2 ^ 2)]]

/-- Covariance reconstruction shared by both readers: the einsum
`onp.einsum("nij,njk,nlk->nil", Rs, onp.eye(3) * scales ** 2, Rs)` of the
source, per splat: `cov i l = ∑ j, ∑ k, R i j * S j k * R l k` with
`S j k = (if j = k then 1 else 0) * s k ^ 2`. -/
noncomputable def covFromRS (R : Matrix (Fin 3) (Fin 3) ℝ) (s : Fin 3 → ℝ) :
    Matrix (Fin 3) (Fin 3) ℝ :=
  Matrix.of fun i l =>
    ∑ j : Fin 3, ∑ k : Fin 3, R i j * ((if j = k then 1 else 0) * s k ^ 2) * R l k

/-- Bytes per serialized Gaussian of the packed format: position
(3 float32) + scale (3 float32) + rgba (4 uint8) + ijkl rotation
(4 uint8), 32 in total. -/
def bytes_per_gaussian : ℕ := 3 * 4 + 3 * 4 + 4 + 4

/-- Byte `k` of a buffer. -/
def byteAt (buf : List ℕ) (k : ℕ) : ℕ := buf.getD k 0

/-- Little-endian IEEE-754 binary32 decoding of four bytes, as a real
number: the reinterpret cast `.copy().view(onp.float32)` of the source.
Bit patterns with exponent field 255 (infinities and NaNs) have no real
value and are mapped to 0; no claim depends on them. -/
noncomputable def decodeFloat32le (b0 b1 b2 b3 : ℕ) : ℝ :=
  let bits : ℕ := b0 + b1 * 2 ^ 8 + b2 * 2 ^ 16 + b3 * 2 ^ 24
  let sign : ℕ := bits / 2 ^ 31 % 2
  let expo : ℕ := bits / 2 ^ 23 % 256
  let mant : ℕ := bits % 2 ^ 23
  let mag : ℝ :=
    if expo = 0 then (mant : ℝ) / 2 ^ 23 * (2 : ℝ) ^ (-126 : ℤ)
    else if expo = 255 then 0
    else (1 + (mant : ℝ) / 2 ^ 23) * (2 : ℝ) ^ ((expo : ℤ) - 127)
  if sign = 1 then -mag else mag

/-- Color/opacity byte decoding of the packed format:
`splat_uint8[:, 24:28] / 255.0`. -/
noncomputable def colorByteDecode (b : ℕ) : ℝ := (b : ℝ) / 255

/-- Rotation byte decoding of the packed format:
`splat_uint8[:, 28:32] / 255.0 * 2.0 - 1.0`. -/
noncomputable def rotByteDecode (b : ℕ) : ℝ := (b : ℝ) / 255 * 2 - 1

/-- Record count of the packed reader:
`num_gaussians = len(splat_buffer) // bytes_per_gaussian`. -/
def numGaussians (buf : List ℕ) : ℕ := buf.length / bytes_per_gaussian

/-- Position of packed record `g`: record bytes `[0:12)` viewed as three
little-endian float32. -/
noncomputable def splatPosition (buf : List ℕ) (g : ℕ) : Fin 3 → ℝ := fun i =>
  decodeFloat32le (byteAt buf (g * bytes_per_gaussian + 4 * (i : ℕ)))
    (byteAt buf (g * bytes_per_gaussian + 4 * (i : ℕ) + 1))
    (byteAt buf (g * bytes_per_gaussian + 4 * (i : ℕ) + 2))
    (byteAt buf (g * bytes_per_gaussian + 4 * (i : ℕ) + 3))

/-- Scale of packed record `g`: record bytes `[12:24)` viewed as three
little-endian float32. -/
noncomputable def splatScale (buf : List ℕ) (g : ℕ) : Fin 3 → ℝ := fun i =>
  decodeFloat32le (byteAt buf (g * bytes_per_gaussian + 12 + 4 * (i : ℕ)))
    (byteAt buf (g * bytes_per_gaussian + 12 + 4 * (i : ℕ) + 1))
    (byteAt buf (g * bytes_per_gaussian + 12 + 4 * (i : ℕ) + 2))
    (byteAt buf (g * bytes_per_gaussian + 12 + 4 * (i : ℕ) + 3))

/-- Color of packed record `g`: record bytes `[24:27)`, each divided
by 255. -/
noncomputable def splatRgb (buf : List ℕ) (g : ℕ) : Fin 3 → ℝ := fun c =>
  colorByteDecode (byteAt buf (g * bytes_per_gaussian + 24 + (c : ℕ)))

/-- Opacity of packed record `g`: record byte 27, divided by 255. -/
noncomputable def splatOpacity (buf : List ℕ) (g : ℕ) : ℝ :=
  colorByteDecode (byteAt buf (g * bytes_per_gaussian + 27))

/-- Rotation quaternion of packed record `g`, scalar-first: record bytes
`[28:32)`, each decoded by `b / 255 * 2 - 1`, passed to the covariance
reconstruction without normalization. -/
noncomputable def splatWxyz (buf : List ℕ) (g : ℕ) : Fin 4 → ℝ := fun j =>
  rotByteDecode (byteAt buf (g * bytes_per_gaussian + 28 + (j : ℕ)))

/-- Centers of the packed reader: decoded positions, with the collection
centroid subtracted when `center` is true
(`centers -= onp.mean(centers, axis=0, keepdims=True)`). -/
noncomputable def splatCentersFn (buf : List ℕ) (center : Bool) : ℕ → Fin 3 → ℝ :=
  fun g i =>
    if center then
      splatPosition buf g i -
        (∑ h ∈ Finset.range (numGaussians buf), splatPosition buf h i) / numGaussians buf
    else splatPosition buf g i

/-- Field extraction of `load_splat_file` on its success path — all four
output arrays, in record order. Reached only with at least one record:
with zero records the source never produces a `SplatFile`, because the
covariance einsum raises `ValueError` on the shape-`(0,)` `Rs` array
(that failure is modelled in `load_splat_file`). -/
noncomputable def splatFileOfBuf (buf : List ℕ) (center : Bool) : SplatFile :=
  ⟨(List.range (numGaussians buf)).map (splatCentersFn buf center),
   (List.range (numGaussians buf)).map (splatRgb buf),
   (List.range (numGaussians buf)).map (splatOpacity buf),
   (List.range (numGaussians buf)).map fun g =>
     covFromRS (quatToMatrix (splatWxyz buf g)) (splatScale buf g)⟩

/-- Shallow embedding of `load_splat_file`: the alignment assert fires
first (`MalformedFile` on a length that is not a multiple of 32); then,
with zero records, the rotation list comprehension is empty and the
covariance einsum raises `ValueError` on the shape-`(0,)` `Rs` array;
otherwise every field is extracted at its fixed offset. -/
noncomputable def load_splat_file (buf : List ℕ) (center : Bool) :
    Except LoadError SplatFile :=
  if buf.length % bytes_per_gaussian = 0 then
    if numGaussians buf = 0 then .error .ValueError
    else .ok (splatFileOfBuf buf center)
  else .error .MalformedFile

/-- One vertex of the structured point-cloud (.ply) format, carrying the
named properties the reader uses. -/
structure PlyVertex where
  x : ℝ
  y : ℝ
  z : ℝ
  scale_0 : ℝ
  scale_1 : ℝ
  scale_2 : ℝ
  rot_0 : ℝ
  rot_1 : ℝ
  rot_2 : ℝ
  rot_3 : ℝ
  f_dc_0 : ℝ
  f_dc_1 : ℝ
  f_dc_2 : ℝ
  opacity : ℝ

instance : Inhabited PlyVertex := ⟨⟨0, 0, 0, 0, 0, 0, 0, 0, 0, 0, 0, 0, 0, 0⟩⟩

/-- Spherical-harmonic DC conversion constant `SH_C0` of the source. -/
noncomputable def SH_C0 : ℝ := 0.28209479177387814

/-- Position of a ply vertex: `[v["x"], v["y"], v["z"]]`. -/
noncomputable def plyPosition (v : PlyVertex) : Fin 3 → ℝ := ![v.x, v.y, v.z]

/-- Scale decoding of the ply reader:
`exp([v["scale_0"], v["scale_1"], v["scale_2"]])` componentwise. -/
noncomputable def plyScale (v : PlyVertex) : Fin 3 → ℝ := fun i =>
  Real.exp (![v.scale_0, v.scale_1, v.scale_2] i)

/-- Color decoding of the ply reader: `0.5 + SH_C0 * v["f_dc_c"]`. -/
noncomputable def plyColor (v : PlyVertex) : Fin 3 → ℝ := fun c =>
  0.5 + SH_C0 * (![v.f_dc_0, v.f_dc_1, v.f_dc_2] c)

/-- Opacity decoding of the ply reader:
`1 / (1 + exp(-v["opacity"]))`. -/
noncomputable def plyOpacity (v : PlyVertex) : ℝ :=
  1 / (1 + Real.exp (-v.opacity))

/-- Stored rotation of a ply vertex, scalar-first. -/
noncomputable def rotVec (v : PlyVertex) : Fin 4 → ℝ :=
  ![v.rot_0, v.rot_1, v.rot_2, v.rot_3]

/-- Rotation decoding of the ply reader:
`wxyz = rot / onp.linalg.norm(rot)` (explicit normalization). -/
noncomputable def plyWxyz (v : PlyVertex) : Fin 4 → ℝ := fun j =>
  rotVec v j / Real.sqrt (∑ k : Fin 4, rotVec v k ^ 2)

/-- Importance heuristic of the ply reader:
`exp(scale_0 + scale_1 + scale_2) / (1 + exp(-opacity))`. -/
noncomputable def importance (v : PlyVertex) : ℝ :=
  Real.exp (v.scale_0 + v.scale_1 + v.scale_2) / (1 + Real.exp (-v.opacity))

/-- Insertion of an index into an index list kept ordered by `key`,
ascending. -/
noncomputable def insertByKey (key : ℕ → ℝ) (i : ℕ) : List ℕ → List ℕ
  | [] => [i]
  | j :: rest => if key i ≤ key j then i :: j :: rest else j :: insertByKey key i rest

/-- Insertion sort of an index list by `key`, ascending. -/
noncomputable def argsortList (key : ℕ → ℝ) : List ℕ → List ℕ
  | [] => []
  | i :: rest => insertByKey key i (argsortList key rest)

/-- Shallow embedding of the source's
`sorted_indices = onp.argsort(-exp(Σ scale) / (1 + exp(-opacity)))`:
the indices `0, …, n-1` ordered by ascending negated importance, that is
by descending importance. -/
noncomputable def sortedIndices (vs : List PlyVertex) : List ℕ :=
  argsortList (fun i => -importance (vs.getD i default)) (List.range vs.length)

/-- The per-vertex write loop of `load_ply_file`: for each `idx` of
`order` in turn, decode vertex `idx` and write the result at index `idx`
of the output array (`arrays[idx] = decode(vertex[idx])`), starting from
the pre-zeroed array `init`. -/
noncomputable def plyWriteLoop {α : Type} (vs : List PlyVertex) (dec : PlyVertex → α)
    (order : List ℕ) (init : ℕ → α) : ℕ → α :=
  order.foldl (fun acc idx => Function.update acc idx (dec (vs.getD idx default))) init

/-- One output array of `load_ply_file`: the write loop run over
`sortedIndices`, starting from the all-`zero` array (`onp.zeros(...)`). -/
noncomputable def plyArray {α : Type} (vs : List PlyVertex) (dec : PlyVertex → α)
    (zero : α) : ℕ → α :=
  plyWriteLoop vs dec (sortedIndices vs) (fun _ => zero)

/-- Success path of `load_ply_file` — decode every vertex through the
write loop driven by `sortedIndices`, reconstruct covariances from the
decoded rotation and scale arrays, and optionally subtract the position
centroid. Reached only with at least one vertex: with zero vertices the
covariance einsum raises `ValueError` on the shape-`(0,)` `Rs` array
(that failure is modelled in `load_ply_file`). -/
noncomputable def plyFileOfVerts (vs : List PlyVertex) (center : Bool) : SplatFile :=
  let n := vs.length
  let posA := plyArray vs plyPosition (fun _ => 0)
  let centersFn : ℕ → Fin 3 → ℝ := fun g i =>
    if center then posA g i - (∑ h ∈ Finset.range n, posA h i) / n else posA g i
  ⟨(List.range n).map centersFn,
   (List.range n).map (plyArray vs plyColor (fun _ => 0)),
   (List.range n).map (plyArray vs plyOpacity 0),
   (List.range n).map fun g =>
     covFromRS (quatToMatrix (plyArray vs plyWxyz (fun _ => 0) g))
       (plyArray vs plyScale (fun _ => 0) g)⟩

/-- Shallow embedding of `load_ply_file`: with zero vertices the rotation
list comprehension is empty and the covariance einsum raises `ValueError`
on the shape-`(0,)` `Rs` array; otherwise the reader succeeds with the
decoded collection. -/
noncomputable def load_ply_file (vs : List PlyVertex) (center : Bool) :
    Except LoadError SplatFile :=
  if vs.length = 0 then .error .ValueError
  else .ok (plyFileOfVerts vs center)

/-- Componentwise arithmetic mean of a list of 3-vectors
(`onp.mean(centers, axis=0)`). -/
noncomputable def meanVec (l : List (Fin 3 → ℝ)) (c : Fin 3) : ℝ :=
  (l.map fun v => v c).sum / l.length

/-- One input file of `main`, already classified by its suffix. -/
inductive InputFile where
  | splat (buf : List ℕ)
  | ply (verts : List PlyVertex)
  | unsupported

/-- Abnormal end of `main`: the `raise SystemExit` branch for unsupported
suffixes, or a failure propagated from a reader. -/
inductive MainError where
  | SystemExitUnsupported
  | load (e : LoadError)

/-- Load dispatch of `main` for one path: `.splat` files go through
`load_splat_file` and `.ply` files through `load_ply_file`, both called
with `center=True`; any other suffix raises `SystemExit`. The
`test_multisplat` flag of `main` is accepted but, as in the source, never
read. -/
noncomputable def mainLoadOne (f : InputFile) (test_multisplat : Bool) :
    Except MainError SplatFile :=
  match f with
  | .splat buf => (load_splat_file buf true).mapError .load
  | .ply verts => (load_ply_file verts true).mapError .load
  | .unsupported => .error .SystemExitUnsupported

/-- Load loop of `main` over all given paths (the scene-graph and GUI
side effects are out of scope per the spec). -/
noncomputable def main (files : List InputFile) (test_multisplat : Bool) :
    Except MainError (List SplatFile) :=
  files.mapM (fun f => mainLoadOne f test_multisplat)

/-! Concrete inputs used to test the claims. -/

/-- Ply vertex with every stored property zero. -/
noncomputable def plyVertexA : PlyVertex := ⟨0, 0, 0, 0, 0, 0, 0, 0, 0, 0, 0, 0, 0, 0⟩

/-- Ply vertex with position `x = 5` and stored log-scale `scale_0 = ln 2`,
giving it twice the importance of `plyVertexA`. -/
noncomputable def plyVertexB : PlyVertex :=
  ⟨5, 0, 0, Real.log 2, 0, 0, 0, 0, 0, 0, 0, 0, 0, 0⟩

/-- Ply vertex with `f_dc_0 = 2` and everything else zero, whose decoded
red channel exceeds 1. -/
noncomputable def plyVertexC : PlyVertex := ⟨0, 0, 0, 0, 0, 0, 0, 0, 0, 0, 2, 0, 0, 0⟩

/-- Packed buffer of 64 bytes (2 records); record 0 is all-zero except
color bytes `[255, 0, 0, 255]` (offsets 24-27) and rotation bytes
`[255, 127, 127, 127]` (offsets 28-31); record 1 is all-zero. -/
def exampleBuf64 : List ℕ :=
  [0, 0, 0, 0, 0, 0, 0, 0, 0, 0, 0, 0,
   0, 0, 0, 0, 0, 0, 0, 0, 0, 0, 0, 0,
   255, 0, 0, 255, 255, 127, 127, 127,
   0, 0, 0, 0, 0, 0, 0, 0, 0, 0, 0, 0,
   0, 0, 0, 0, 0, 0, 0, 0, 0, 0, 0, 0,
   0, 0, 0, 0, 0, 0, 0, 0]

/-- Packed buffer of 64 bytes (2 records); record 0 stores position
`x = 1.0f` (little-endian bytes `[0, 0, 128, 63]`) and is otherwise
all-zero; record 1 is all-zero. -/
def exampleBuf64b : List ℕ :=
  [0, 0, 128, 63, 0, 0, 0, 0, 0, 0, 0, 0,
   0, 0, 0, 0, 0, 0, 0, 0, 0, 0, 0, 0,
   0, 0, 0, 0, 0, 0, 0, 0,
   0, 0, 0, 0, 0, 0, 0, 0, 0, 0, 0, 0,
   0, 0, 0, 0, 0, 0, 0, 0, 0, 0, 0, 0,
   0, 0, 0, 0, 0, 0, 0, 0]

/-! Helper lemmas about the write loop, the index sort, and lists. -/

theorem mem_insertByKey (key : ℕ → ℝ) (i x : ℕ) (l : List ℕ) :
    x ∈ insertByKey key i l ↔ x = i ∨ x ∈ l := by
  induction l with
  | nil => simp [insertByKey]
  | cons j rest ih =>
    simp only [insertByKey]
    split
    · simp [List.mem_cons]
    · simp only [List.mem_cons, ih]
      tauto

theorem mem_argsortList (key : ℕ → ℝ) (x : ℕ) (l : List ℕ) :
    x ∈ argsortList key l ↔ x ∈ l := by
  induction l with
  | nil => simp [argsortList]
  | cons j rest ih =>
    simp only [argsortList, mem_insertByKey, List.mem_cons, ih]

theorem mem_sortedIndices (vs : List PlyVertex) (g : ℕ) :
    g ∈ sortedIndices vs ↔ g < vs.length := by
  rw [sortedIndices, mem_argsortList, List.mem_range]

theorem plyWriteLoop_apply {α : Type} (vs : List PlyVertex) (dec : PlyVertex → α)
    (order : List ℕ) (init : ℕ → α) (i : ℕ) :
    plyWriteLoop vs dec order init i =
      if i ∈ order then dec (vs.getD i default) else init i := by
  induction order generalizing init with
  | nil => simp [plyWriteLoop]
  | cons j rest ih =>
    simp only [plyWriteLoop, List.foldl_cons] at ih ⊢
    rw [ih]
    by_cases hr : i ∈ rest
    · simp [hr, List.mem_cons]
    · by_cases hj : i = j
      · subst hj
        simp [hr, List.mem_cons, Function.update_apply]
      · simp [hr, hj, List.mem_cons, Function.update_apply]

theorem plyArray_apply {α : Type} (vs : List PlyVertex) (dec : PlyVertex → α)
    (zero : α) (g : ℕ) :
    plyArray vs dec zero g =
      if g < vs.length then dec (vs.getD g default) else zero := by
  rw [plyArray, plyWriteLoop_apply]
  simp only [mem_sortedIndices]

theorem sum_map_range (f : ℕ → ℝ) (n : ℕ) :
    ((List.range n).map f).sum = ∑ i ∈ Finset.range n, f i := by
  induction n with
  | zero => simp
  | succ m ih => simp [List.range_succ, Finset.sum_range_succ, ih]

theorem getD_range_map {α : Type} (f : ℕ → α) (d : α) {n g : ℕ} (h : g < n) :
    ((List.range n).map f).getD g d = f g := by
  rw [List.getD_eq_getElem?_getD]
  simp [List.getElem?_eq_getElem, h]

theorem range_map_getD {α β : Type} [Inhabited α] (vs : List α) (dec : α → β) :
    (List.range vs.length).map (fun g => dec (vs.getD g default)) = vs.map dec := by
  apply List.ext_getElem
  · simp
  · intro i h1 h2
    simp only [List.getElem_map, List.getElem_range]
    rw [List.getD_eq_getElem?_getD]
    simp at h2
    simp [List.getElem?_eq_getElem, h2]

/-! Helper lemmas unfolding the components of `load_ply_file`. -/

theorem plyFileOfVerts_rgbs (vs : List PlyVertex) (center : Bool) :
    (plyFileOfVerts vs center).rgbs = vs.map plyColor := by
  rw [show (plyFileOfVerts vs center).rgbs
      = (List.range vs.length).map (plyArray vs plyColor (fun _ => 0)) from rfl]
  rw [← range_map_getD vs plyColor]
  apply List.map_congr_left
  intro g hg
  rw [plyArray_apply, if_pos (List.mem_range.mp hg)]

theorem plyFileOfVerts_opacities (vs : List PlyVertex) (center : Bool) :
    (plyFileOfVerts vs center).opacities = vs.map plyOpacity := by
  rw [show (plyFileOfVerts vs center).opacities
      = (List.range vs.length).map (plyArray vs plyOpacity 0) from rfl]
  rw [← range_map_getD vs plyOpacity]
  apply List.map_congr_left
  intro g hg
  rw [plyArray_apply, if_pos (List.mem_range.mp hg)]

theorem plyFileOfVerts_covariances (vs : List PlyVertex) (center : Bool) :
    (plyFileOfVerts vs center).covariances =
      vs.map fun v => covFromRS (quatToMatrix (plyWxyz v)) (plyScale v) := by
  rw [show (plyFileOfVerts vs center).covariances
      = (List.range vs.length).map (fun g =>
          covFromRS (quatToMatrix (plyArray vs plyWxyz (fun _ => 0) g))
            (plyArray vs plyScale (fun _ => 0) g)) from rfl]
  rw [← range_map_getD vs (fun v => covFromRS (quatToMatrix (plyWxyz v)) (plyScale v))]
  apply List.map_congr_left
  intro g hg
  rw [plyArray_apply, if_pos (List.mem_range.mp hg),
    plyArray_apply, if_pos (List.mem_range.mp hg)]

theorem plyFileOfVerts_centers_false (vs : List PlyVertex) :
    (plyFileOfVerts vs false).centers = vs.map plyPosition := by
  rw [show (plyFileOfVerts vs false).centers
      = (List.range vs.length).map (fun g i =>
          if false then
            plyArray vs plyPosition (fun _ => 0) g i -
              (∑ h ∈ Finset.range vs.length, plyArray vs plyPosition (fun _ => 0) h i) /
                vs.length
          else plyArray vs plyPosition (fun _ => 0) g i) from rfl]
  rw [← range_map_getD vs plyPosition]
  apply List.map_congr_left
  intro g hg
  funext i
  simp only [Bool.false_eq_true, if_false]
  rw [plyArray_apply, if_pos (List.mem_range.mp hg)]

theorem plyFileOfVerts_centers_true (vs : List PlyVertex) :
    (plyFileOfVerts vs true).centers =
      (List.range vs.length).map (fun g i =>
        plyPosition (vs.getD g default) i -
          (∑ h ∈ Finset.range vs.length, plyPosition (vs.getD h default) i) /
            vs.length) := by
  rw [show (plyFileOfVerts vs true).centers
      = (List.range vs.length).map (fun g i =>
          if true then
            plyArray vs plyPosition (fun _ => 0) g i -
              (∑ h ∈ Finset.range vs.length, plyArray vs plyPosition (fun _ => 0) h i) /
                vs.length
          else plyArray vs plyPosition (fun _ => 0) g i) from rfl]
  apply List.map_congr_left
  intro g hg
  funext i
  simp only [if_true]
  rw [plyArray_apply, if_pos (List.mem_range.mp hg)]
  congr 2
  apply Finset.sum_congr rfl
  intro h hh
  rw [plyArray_apply, if_pos (Finset.mem_range.mp hh)]

theorem load_ply_file_ok (vs : List PlyVertex) (center : Bool) (h : vs ≠ []) :
    load_ply_file vs center = Except.ok (plyFileOfVerts vs center) := by
  rw [load_ply_file, if_neg (fun h0 => h (List.length_eq_zero.mp h0))]

/-! Helper lemmas about the covariance reconstruction. -/

theorem covFromRS_eq (R : Matrix (Fin 3) (Fin 3) ℝ) (s : Fin 3 → ℝ) :
    covFromRS R s = R * Matrix.diagonal (fun k => s k ^ 2) * R.transpose := by
  ext i l
  simp only [covFromRS, Matrix.of_apply, Matrix.mul_apply, Matrix.diagonal_apply,
    Matrix.transpose_apply, Finset.sum_mul]
  rw [Finset.sum_comm]
  apply Finset.sum_congr rfl
  intro k _
  apply Finset.sum_congr rfl
  intro j _
  by_cases hjk : j = k
  · subst hjk; simp
  · simp [hjk]

theorem covFromRS_transpose (R : Matrix (Fin 3) (Fin 3) ℝ) (s : Fin 3 → ℝ) :
    (covFromRS R s).transpose = covFromRS R s := by
  rw [covFromRS_eq, Matrix.transpose_mul, Matrix.transpose_mul,
    Matrix.transpose_transpose, Matrix.diagonal_transpose, ← Matrix.mul_assoc]

theorem covFromRS_posSemidef (R : Matrix (Fin 3) (Fin 3) ℝ) (s : Fin 3 → ℝ) :
    (covFromRS R s).PosSemidef := by
  have h1 : covFromRS R s = (R * Matrix.diagonal s) * (R * Matrix.diagonal s).conjTranspose := by
    rw [Matrix.conjTranspose_eq_transpose_of_trivial, covFromRS_eq,
      Matrix.transpose_mul, Matrix.diagonal_transpose, Matrix.mul_assoc,
      Matrix.mul_assoc, ← Matrix.mul_assoc (Matrix.diagonal s),
      Matrix.diagonal_mul_diagonal]
    have hs : (fun k => s k ^ 2) = fun i => s i * s i := by
      funext k
      rw [pow_two]
    rw [hs]
  rw [h1]
  exact Matrix.posSemidef_self_mul_conjTranspose _

/-! Helper lemmas about bytes and centering. -/

theorem byteAt_le_255 {buf : List ℕ} (hb : ∀ b ∈ buf, b ≤ 255) (k : ℕ) :
    byteAt buf k ≤ 255 := by
  rw [byteAt, List.getD_eq_getElem?_getD]
  by_cases h : k < buf.length
  · rw [List.getElem?_eq_getElem h]
    exact hb _ (List.getElem_mem h)
  · rw [List.getElem?_eq_none (Nat.le_of_not_lt h)]
    simp

theorem colorByteDecode_mem_unit {b : ℕ} (hb : b ≤ 255) :
    0 ≤ colorByteDecode b ∧ colorByteDecode b ≤ 1 := by
  constructor
  · rw [colorByteDecode]
    positivity
  · rw [colorByteDecode, div_le_one (by norm_num)]
    exact_mod_cast hb

theorem centered_sum_zero (P : ℕ → ℝ) (n : ℕ) (hn : n ≠ 0) :
    ∑ g ∈ Finset.range n, (P g - (∑ h ∈ Finset.range n, P h) / n) = 0 := by
  have hn2 : (n : ℝ) ≠ 0 := Nat.cast_ne_zero.mpr hn
  rw [Finset.sum_sub_distrib, Finset.sum_const, Finset.card_range, nsmul_eq_mul]
  field_simp

theorem byteAt_replicate_zero (n k : ℕ) : byteAt (List.replicate n 0) k = 0 := by
  rw [byteAt, List.getD_eq_getElem?_getD, List.getElem?_replicate]
  split <;> rfl

theorem decodeFloat32le_one : decodeFloat32le 0 0 128 63 = 1 := by
  simp only [decodeFloat32le]
  norm_num

theorem decodeFloat32le_zero : decodeFloat32le 0 0 0 0 = 0 := by
  simp only [decodeFloat32le]
  norm_num

/-! Claim theorems. -/

/-- C3 counterexample: the empty buffer has length 0, a multiple of 32,
yet `load_splat_file` does not succeed with `0 / 32 = 0` splats — with
zero records the covariance einsum raises `ValueError` on the
shape-`(0,)` `Rs` array, so the claimed universal success over aligned
buffers fails at this input. -/
theorem C3_counterexample :
    load_splat_file [] false = Except.error LoadError.ValueError := rfl

/-- C3 (amended): `load_splat_file` succeeds, with exactly `len / 32`
splats in each of the four output arrays, for every nonempty byte buffer
whose length is a multiple of 32; it fails with `MalformedFile` for
every buffer whose length is not a multiple of 32; and on the empty
buffer (aligned, but zero records) it fails with the einsum
`ValueError`. -/
theorem C3_record_alignment (buf : List ℕ) (center : Bool) :
    (buf.length % 32 = 0 → buf ≠ [] →
      load_splat_file buf center = Except.ok (splatFileOfBuf buf center) ∧
      (splatFileOfBuf buf center).centers.length = buf.length / 32 ∧
      (splatFileOfBuf buf center).rgbs.length = buf.length / 32 ∧
      (splatFileOfBuf buf center).opacities.length = buf.length / 32 ∧
      (splatFileOfBuf buf center).covariances.length = buf.length / 32) ∧
    (buf.length % 32 ≠ 0 →
      load_splat_file buf center = Except.error LoadError.MalformedFile) ∧
    (buf = [] → load_splat_file buf center = Except.error LoadError.ValueError) := by
  have h32 : bytes_per_gaussian = 32 := rfl
  refine ⟨?_, ?_, ?_⟩
  · intro h hne
    have hlen : buf.length ≠ 0 := fun h0 => hne (List.length_eq_zero.mp h0)
    have hn : numGaussians buf ≠ 0 := by
      rw [numGaussians, h32]
      omega
    rw [load_splat_file, h32, if_pos h, if_neg hn]
    refine ⟨rfl, ?_, ?_, ?_, ?_⟩ <;>
      simp [splatFileOfBuf, numGaussians, h32]
  · intro h
    rw [load_splat_file, h32, if_neg h]
  · intro h
    subst h
    rfl

/-- Witness for C3: a 64-byte buffer is accepted with 2 splats; a
33-byte buffer is rejected as `MalformedFile`; the empty buffer is
rejected with the einsum `ValueError`. -/
theorem C3_record_alignment_witness :
    load_splat_file (List.replicate 64 0) false
        = Except.ok (splatFileOfBuf (List.replicate 64 0) false) ∧
      (splatFileOfBuf (List.replicate 64 0) false).centers.length = 2 ∧
      load_splat_file (List.replicate 33 0) false
        = Except.error LoadError.MalformedFile ∧
      load_splat_file ([] : List ℕ) false = Except.error LoadError.ValueError := by
  have h1 := (C3_record_alignment (List.replicate 64 0) false).1 (by simp) (by simp)
  have h2 := (C3_record_alignment (List.replicate 33 0) false).2.1 (by simp)
  have h3 := (C3_record_alignment ([] : List ℕ) false).2.2 rfl
  refine ⟨h1.1, ?_, h2, h3⟩
  rw [h1.2.1]
  simp

/-- C10 counterexample: refutes the claim at its own input — on the
zero-length buffer with centering requested, `load_splat_file` does
fail: the alignment check passes, but with zero records `onp.array([])`
has shape `(0,)` and the covariance einsum raises `ValueError`, so no
empty collection is returned. -/
theorem C10_counterexample :
    load_splat_file ([] : List ℕ) true = Except.error LoadError.ValueError := rfl

/-- C10 (amended): on the zero-length buffer the record-alignment check
passes (0 is a multiple of 32) and the record count is 0, but
`load_splat_file` fails with the einsum `ValueError` for either value of
the centering flag, instead of returning a collection of zero splats. -/
theorem C10_empty_buffer (center : Bool) :
    ([] : List ℕ).length % 32 = 0 ∧
    numGaussians ([] : List ℕ) = 0 ∧
    load_splat_file [] center = Except.error LoadError.ValueError :=
  ⟨rfl, rfl, rfl⟩

/-- C4: for every unit quaternion `q` and every real scale vector `s`,
the reconstructed covariance `covFromRS (quatToMatrix q) s` equals
`R * diag(s²) * Rᵗ`, is equal to its own transpose, and is
positive-semidefinite (`Matrix.PosSemidef`, hence has nonnegative
eigenvalues), regardless of the sign of the scale components. -/
theorem C4_covariance_reconstruction (q : Fin 4 → ℝ) (s : Fin 3 → ℝ)
    (hq : ∑ j : Fin 4, q j ^ 2 = 1) :
    covFromRS (quatToMatrix q) s =
      quatToMatrix q * Matrix.diagonal (fun k => s k ^ 2) *
        (quatToMatrix q).transpose ∧
    (covFromRS (quatToMatrix q) s).transpose = covFromRS (quatToMatrix q) s ∧
    (covFromRS (quatToMatrix q) s).PosSemidef :=
  ⟨covFromRS_eq _ _, covFromRS_transpose _ _, covFromRS_posSemidef _ _⟩

/-- Witness for C4: the identity quaternion (1, 0, 0, 0) has unit norm
and its reconstructed covariance with scales (1, 1, 1) is
positive-semidefinite. -/
theorem C4_covariance_reconstruction_witness :
    (∑ j : Fin 4, (![1, 0, 0, 0] : Fin 4 → ℝ) j ^ 2 = 1) ∧
    (covFromRS (quatToMatrix ![1, 0, 0, 0]) ![1, 1, 1]).PosSemidef := by
  have h : ∑ j : Fin 4, (![1, 0, 0, 0] : Fin 4 → ℝ) j ^ 2 = 1 := by
    rw [Fin.sum_univ_four]
    norm_num
  exact ⟨h, (C4_covariance_reconstruction ![1, 0, 0, 0] ![1, 1, 1] h).2.2⟩

/-- C5: the ply reader (which on any nonempty vertex list succeeds with
the collection `plyFileOfVerts`) decodes scale as `exp` of the stored
log-scale componentwise (hence positive), color channel `c` as
`0.5 + 0.28209479177387814 * f_dc_c`, and opacity as the logistic
sigmoid of the stored logit; stored log-scale 0 decodes to 1, stored
log-scale `ln 2` decodes to 2, and stored opacity logit 0 decodes
to 1/2. -/
theorem C5_ply_decoding :
    (∀ (vs : List PlyVertex) (center : Bool),
      (vs ≠ [] → load_ply_file vs center = Except.ok (plyFileOfVerts vs center)) ∧
      (plyFileOfVerts vs center).rgbs = vs.map plyColor ∧
      (plyFileOfVerts vs center).opacities = vs.map plyOpacity ∧
      (plyFileOfVerts vs center).covariances =
        vs.map fun v => covFromRS (quatToMatrix (plyWxyz v)) (plyScale v)) ∧
    (∀ (v : PlyVertex) (i : Fin 3),
      plyScale v i = Real.exp (![v.scale_0, v.scale_1, v.scale_2] i) ∧
      0 < plyScale v i) ∧
    (∀ (v : PlyVertex) (c : Fin 3),
      plyColor v c = 0.5 + 0.28209479177387814 * (![v.f_dc_0, v.f_dc_1, v.f_dc_2] c)) ∧
    (∀ v : PlyVertex, plyOpacity v = 1 / (1 + Real.exp (-v.opacity))) ∧
    plyScale ⟨0, 0, 0, 0, 0, 0, 0, 0, 0, 0, 0, 0, 0, 0⟩ 0 = 1 ∧
    plyScale ⟨0, 0, 0, Real.log 2, 0, 0, 0, 0, 0, 0, 0, 0, 0, 0⟩ 0 = 2 ∧
    plyOpacity ⟨0, 0, 0, 0, 0, 0, 0, 0, 0, 0, 0, 0, 0, 0⟩ = 1 / 2 := by
  refine ⟨fun vs center => ⟨load_ply_file_ok vs center,
    plyFileOfVerts_rgbs vs center, plyFileOfVerts_opacities vs center,
    plyFileOfVerts_covariances vs center⟩,
    fun v i => ⟨rfl, Real.exp_pos _⟩, fun v c => rfl, fun v => rfl, ?_, ?_, ?_⟩
  · simp only [plyScale, Matrix.cons_val_zero]
    exact Real.exp_zero
  · simp only [plyScale, Matrix.cons_val_zero]
    exact Real.exp_log (by norm_num)
  · simp only [plyOpacity, neg_zero, Real.exp_zero]
    norm_num

/-- Witness for C5: the one-vertex all-zero ply file loads successfully
and its color list is the per-vertex decode of that vertex. -/
theorem C5_ply_decoding_witness :
    load_ply_file [plyVertexA] false = Except.ok (plyFileOfVerts [plyVertexA] false) ∧
    (plyFileOfVerts [plyVertexA] false).rgbs = [plyVertexA].map plyColor :=
  ⟨(C5_ply_decoding.1 [plyVertexA] false).1 (by simp),
   (C5_ply_decoding.1 [plyVertexA] false).2.1⟩

/-- C1: refuted by the code — the write loop of `load_ply_file` stores
each decoded vertex back at its own file index
(`positions[idx] = decode(vertex[idx])` for `idx` in `sorted_indices`),
so the importance sort never changes the emitted order. On the
two-vertex file `[plyVertexA, plyVertexB]`, vertex B has strictly
greater importance, yet the collection keeps file order: the
lower-importance vertex A is emitted first. -/
theorem C1_ply_output_is_file_order :
    importance plyVertexA < importance plyVertexB ∧
    load_ply_file [plyVertexA, plyVertexB] false =
      Except.ok (plyFileOfVerts [plyVertexA, plyVertexB] false) ∧
    (plyFileOfVerts [plyVertexA, plyVertexB] false).centers =
      [plyPosition plyVertexA, plyPosition plyVertexB] ∧
    plyPosition plyVertexA 0 ≠ plyPosition plyVertexB 0 := by
  refine ⟨?_, load_ply_file_ok _ _ (by simp), ?_, ?_⟩
  · have hA : importance plyVertexA = 1 / 2 := by
      rw [importance]
      simp only [plyVertexA]
      rw [add_zero, add_zero, neg_zero, Real.exp_zero]
      norm_num
    have hB : importance plyVertexB = 1 := by
      rw [importance]
      simp only [plyVertexB]
      rw [add_zero, add_zero, neg_zero, Real.exp_zero,
        Real.exp_log (by norm_num)]
      norm_num
    rw [hA, hB]
    norm_num
  · rw [plyFileOfVerts_centers_false]
    rfl
  · rw [show plyPosition plyVertexA 0 = 0 from rfl,
      show plyPosition plyVertexB 0 = 5 from rfl]
    norm_num

/-- C2 counterexample: the packed format passes decoded rotations to the
covariance reconstruction without normalizing, and not every rotation
byte quadruple decodes to a (near-)unit quaternion — the quadruple
(0, 0, 0, 0), record 0 of the all-zero 32-byte buffer, decodes to
(-1, -1, -1, -1), whose squared norm is 4. -/
theorem C2_counterexample :
    (∑ j : Fin 4, splatWxyz (List.replicate 32 0) 0 j ^ 2) = 4 := by
  rw [Fin.sum_univ_four]
  simp only [splatWxyz, byteAt_replicate_zero, rotByteDecode]
  norm_num

/-- C2 (amended): the point-cloud reader explicitly divides each stored
quaternion by its Euclidean norm, so whenever the stored quaternion is
nonzero the quaternion it passes to covariance reconstruction has unit
norm; the packed reader performs no normalization — each decoded
component `b/255*2-1` merely lies in [-1, 1] for byte values `b ≤ 255`,
and the decoded quadruple need not be near unit length. -/
theorem C2_quaternion_normalization :
    (∀ v : PlyVertex, (∑ k : Fin 4, rotVec v k ^ 2) ≠ 0 →
      ∑ j : Fin 4, plyWxyz v j ^ 2 = 1) ∧
    (∀ b : ℕ, b ≤ 255 → -1 ≤ rotByteDecode b ∧ rotByteDecode b ≤ 1) := by
  constructor
  · intro v hv
    have hpos : (0:ℝ) ≤ ∑ k : Fin 4, rotVec v k ^ 2 :=
      Finset.sum_nonneg fun k _ => sq_nonneg (rotVec v k)
    simp only [plyWxyz, div_pow, Real.sq_sqrt hpos]
    rw [← Finset.sum_div, div_self hv]
  · intro b hb
    have hc : (b:ℝ) ≤ 255 := by exact_mod_cast hb
    have hc0 : (0:ℝ) ≤ (b:ℝ) := Nat.cast_nonneg b
    rw [rotByteDecode]
    constructor
    · have h1 : (0:ℝ) ≤ (b:ℝ) / 255 := by positivity
      linarith
    · have h2 : (b:ℝ) / 255 ≤ 1 := by
        rw [div_le_one (by norm_num)]
        exact hc
      linarith

/-- Witness for C2: the vertex with stored rotation (1, 0, 0, 0) has
nonzero stored squared norm and decodes to an exactly unit quaternion,
and byte 0 decodes into [-1, 1]. -/
theorem C2_quaternion_normalization_witness :
    (∑ j : Fin 4,
      plyWxyz ⟨0, 0, 0, 0, 0, 0, 1, 0, 0, 0, 0, 0, 0, 0⟩ j ^ 2 = 1) ∧
    (-1 ≤ rotByteDecode 0 ∧ rotByteDecode 0 ≤ 1) := by
  constructor
  · apply C2_quaternion_normalization.1
    rw [Fin.sum_univ_four]
    rw [show rotVec ⟨0, 0, 0, 0, 0, 0, 1, 0, 0, 0, 0, 0, 0, 0⟩ 0 = 1 from rfl,
      show rotVec ⟨0, 0, 0, 0, 0, 0, 1, 0, 0, 0, 0, 0, 0, 0⟩ 1 = 0 from rfl,
      show rotVec ⟨0, 0, 0, 0, 0, 0, 1, 0, 0, 0, 0, 0, 0, 0⟩ 2 = 0 from rfl,
      show rotVec ⟨0, 0, 0, 0, 0, 0, 1, 0, 0, 0, 0, 0, 0, 0⟩ 3 = 0 from rfl]
    norm_num
  · exact C2_quaternion_normalization.2 0 (by norm_num)

/-- C6: packed color/opacity bytes decode to `b/255` (monotone, 0 to 0,
255 to 1) and rotation bytes to `b/255*2-1` (0 to -1, 255 to 1, 128 to
1/255, the value the spec writes `~0.0039`); on `exampleBuf64`, splat 0
has color (1, 0, 0), opacity 1, and decoded rotation
(1, -1/255, -1/255, -1/255), which the spec writes
`≈ (1.0, -0.0039, -0.0039, -0.0039)`. -/
theorem C6_packed_decode :
    (∀ b1 b2 : ℕ, b1 ≤ b2 →
      colorByteDecode b1 ≤ colorByteDecode b2 ∧
      rotByteDecode b1 ≤ rotByteDecode b2) ∧
    colorByteDecode 0 = 0 ∧ colorByteDecode 255 = 1 ∧
    rotByteDecode 0 = -1 ∧ rotByteDecode 255 = 1 ∧ rotByteDecode 128 = 1 / 255 ∧
    (splatFileOfBuf exampleBuf64 false).rgbs.getD 0 default 0 = 1 ∧
    (splatFileOfBuf exampleBuf64 false).rgbs.getD 0 default 1 = 0 ∧
    (splatFileOfBuf exampleBuf64 false).rgbs.getD 0 default 2 = 0 ∧
    (splatFileOfBuf exampleBuf64 false).opacities.getD 0 0 = 1 ∧
    splatWxyz exampleBuf64 0 0 = 1 ∧
    splatWxyz exampleBuf64 0 1 = -(1 / 255) ∧
    splatWxyz exampleBuf64 0 2 = -(1 / 255) ∧
    splatWxyz exampleBuf64 0 3 = -(1 / 255) := by
  refine ⟨?_, by norm_num [colorByteDecode], by norm_num [colorByteDecode],
    by norm_num [rotByteDecode], by norm_num [rotByteDecode],
    by norm_num [rotByteDecode], ?_, ?_, ?_, ?_, ?_, ?_, ?_, ?_⟩
  · intro b1 b2 h
    have hc : (b1:ℝ) ≤ b2 := Nat.cast_le.mpr h
    constructor
    · rw [colorByteDecode, colorByteDecode]
      linarith
    · rw [rotByteDecode, rotByteDecode]
      linarith
  · rw [show (splatFileOfBuf exampleBuf64 false).rgbs.getD 0 default 0
        = colorByteDecode 255 from rfl]
    norm_num [colorByteDecode]
  · rw [show (splatFileOfBuf exampleBuf64 false).rgbs.getD 0 default 1
        = colorByteDecode 0 from rfl]
    norm_num [colorByteDecode]
  · rw [show (splatFileOfBuf exampleBuf64 false).rgbs.getD 0 default 2
        = colorByteDecode 0 from rfl]
    norm_num [colorByteDecode]
  · rw [show (splatFileOfBuf exampleBuf64 false).opacities.getD 0 0
        = colorByteDecode 255 from rfl]
    norm_num [colorByteDecode]
  · rw [show splatWxyz exampleBuf64 0 0 = rotByteDecode 255 from rfl]
    norm_num [rotByteDecode]
  · rw [show splatWxyz exampleBuf64 0 1 = rotByteDecode 127 from rfl]
    norm_num [rotByteDecode]
  · rw [show splatWxyz exampleBuf64 0 2 = rotByteDecode 127 from rfl]
    norm_num [rotByteDecode]
  · rw [show splatWxyz exampleBuf64 0 3 = rotByteDecode 127 from rfl]
    norm_num [rotByteDecode]

/-- Witness for C6: the monotone part of `C6_packed_decode` applied to
the concrete bytes 3 ≤ 5. -/
theorem C6_packed_decode_witness :
    colorByteDecode 3 ≤ colorByteDecode 5 ∧
    rotByteDecode 3 ≤ rotByteDecode 5 :=
  C6_packed_decode.1 3 5 (by norm_num)

/-- C7 counterexample: the ply reader does not clamp colors — on the
one-vertex file `[plyVertexC]` (stored `f_dc_0 = 2`) the first color
channel of splat 0 is `0.5 + 0.28209479177387814 * 2 > 1`, outside the
[0, 1] range the claim asserts for every splat. -/
theorem C7_counterexample :
    load_ply_file [plyVertexC] false = Except.ok (plyFileOfVerts [plyVertexC] false) ∧
    1 < (plyFileOfVerts [plyVertexC] false).rgbs.getD 0 default 0 := by
  refine ⟨load_ply_file_ok _ _ (by simp), ?_⟩
  rw [plyFileOfVerts_rgbs]
  rw [show ([plyVertexC].map plyColor).getD 0 default 0
      = 0.5 + SH_C0 * 2 from rfl]
  rw [SH_C0]
  norm_num

/-- C7 (amended): for the packed reader every color channel and the
opacity lie in [0, 1] whenever the input is a genuine byte buffer (all
entries ≤ 255); for the ply reader every opacity lies in [0, 1] (the
sigmoid range), but colors are the unclamped affine value
`0.5 + SH_C0 * f_dc` and are guaranteed in [0, 1] only when
`|SH_C0 * f_dc| ≤ 1/2`. -/
theorem C7_color_opacity_ranges :
    (∀ (buf : List ℕ) (center : Bool), (∀ b ∈ buf, b ≤ 255) →
      (∀ r ∈ (splatFileOfBuf buf center).rgbs, ∀ c : Fin 3, 0 ≤ r c ∧ r c ≤ 1) ∧
      (∀ o ∈ (splatFileOfBuf buf center).opacities, 0 ≤ o ∧ o ≤ 1)) ∧
    (∀ (vs : List PlyVertex) (center : Bool),
      ∀ o ∈ (plyFileOfVerts vs center).opacities, 0 ≤ o ∧ o ≤ 1) ∧
    (∀ (v : PlyVertex) (c : Fin 3),
      |SH_C0 * (![v.f_dc_0, v.f_dc_1, v.f_dc_2] c)| ≤ 1 / 2 →
      0 ≤ plyColor v c ∧ plyColor v c ≤ 1) := by
  refine ⟨?_, ?_, ?_⟩
  · intro buf center hb
    constructor
    · intro r hr c
      rcases List.mem_map.mp hr with ⟨g, _, rfl⟩
      exact colorByteDecode_mem_unit (byteAt_le_255 hb _)
    · intro o ho
      rcases List.mem_map.mp ho with ⟨g, _, rfl⟩
      exact colorByteDecode_mem_unit (byteAt_le_255 hb _)
  · intro vs center o ho
    rw [plyFileOfVerts_opacities] at ho
    rcases List.mem_map.mp ho with ⟨v, _, rfl⟩
    have he : (0:ℝ) < Real.exp (-v.opacity) := Real.exp_pos _
    rw [plyOpacity]
    constructor
    · positivity
    · rw [div_le_one (by linarith)]
      linarith
  · intro v c hc
    rw [abs_le] at hc
    obtain ⟨h1, h2⟩ := hc
    simp only [plyColor]
    constructor
    · linarith
    · linarith

/-- Witness for C7: concrete in-range outputs — the first color channel
of the all-zero packed record, the opacity of the all-zero ply vertex,
and the first color channel of the all-zero ply vertex. -/
theorem C7_color_opacity_ranges_witness :
    (0 ≤ (splatFileOfBuf (List.replicate 32 0) false).rgbs.getD 0 default 0 ∧
      (splatFileOfBuf (List.replicate 32 0) false).rgbs.getD 0 default 0 ≤ 1) ∧
    (0 ≤ (plyFileOfVerts [plyVertexA] false).opacities.getD 0 0 ∧
      (plyFileOfVerts [plyVertexA] false).opacities.getD 0 0 ≤ 1) ∧
    (0 ≤ plyColor plyVertexA 0 ∧ plyColor plyVertexA 0 ≤ 1) := by
  have hbytes : ∀ b ∈ List.replicate 32 (0:ℕ), b ≤ 255 := by
    intro b hb
    rw [List.eq_of_mem_replicate hb]
    norm_num
  refine ⟨?_, ?_, ?_⟩
  · have hm : (splatFileOfBuf (List.replicate 32 0) false).rgbs.getD 0 default
        ∈ (splatFileOfBuf (List.replicate 32 0) false).rgbs := by
      rw [show (splatFileOfBuf (List.replicate 32 0) false).rgbs
          = [splatRgb (List.replicate 32 0) 0] from rfl]
      simp
    exact (C7_color_opacity_ranges.1 (List.replicate 32 0) false hbytes).1 _ hm 0
  · have hm : (plyFileOfVerts [plyVertexA] false).opacities.getD 0 0
        ∈ (plyFileOfVerts [plyVertexA] false).opacities := by
      rw [plyFileOfVerts_opacities]
      rw [show ([plyVertexA].map plyOpacity).getD 0 0 = plyOpacity plyVertexA from rfl]
      simp
    exact C7_color_opacity_ranges.2.1 [plyVertexA] false _ hm
  · apply C7_color_opacity_ranges.2.2 plyVertexA 0
    rw [show (![plyVertexA.f_dc_0, plyVertexA.f_dc_1, plyVertexA.f_dc_2] 0 : ℝ)
        = 0 from rfl]
    rw [mul_zero, abs_zero]
    norm_num

/-- C8: with centering requested, in both readers every output center is
the decoded position minus the centroid of all decoded positions, and
the componentwise mean of the output centers is exactly zero, for every
nonempty (and, for the packed reader, record-aligned) input. -/
theorem C8_centering :
    (∀ buf : List ℕ, numGaussians buf ≠ 0 →
      (buf.length % 32 = 0 →
        load_splat_file buf true = Except.ok (splatFileOfBuf buf true)) ∧
      (∀ c : Fin 3, meanVec (splatFileOfBuf buf true).centers c = 0) ∧
      (∀ g : ℕ, g < numGaussians buf → ∀ c : Fin 3,
        (splatFileOfBuf buf true).centers.getD g default c =
          splatPosition buf g c -
            (∑ h ∈ Finset.range (numGaussians buf), splatPosition buf h c) /
              numGaussians buf)) ∧
    (∀ vs : List PlyVertex, vs ≠ [] →
      load_ply_file vs true = Except.ok (plyFileOfVerts vs true) ∧
      (∀ c : Fin 3, meanVec (plyFileOfVerts vs true).centers c = 0) ∧
      (∀ g : ℕ, g < vs.length → ∀ c : Fin 3,
        (plyFileOfVerts vs true).centers.getD g default c =
          plyPosition (vs.getD g default) c -
            (∑ h ∈ Finset.range vs.length, plyPosition (vs.getD h default) c) /
              vs.length)) := by
  constructor
  · intro buf hn
    refine ⟨?_, ?_, ?_⟩
    · intro ha
      rw [load_splat_file, show bytes_per_gaussian = 32 from rfl, if_pos ha,
        if_neg hn]
    · intro c
      rw [meanVec]
      rw [show (splatFileOfBuf buf true).centers
          = (List.range (numGaussians buf)).map (splatCentersFn buf true) from rfl]
      rw [List.map_map]
      rw [show ((fun v : Fin 3 → ℝ => v c) ∘ splatCentersFn buf true)
          = fun g => splatCentersFn buf true g c from rfl]
      rw [sum_map_range]
      have hcong : ∀ g ∈ Finset.range (numGaussians buf),
          splatCentersFn buf true g c =
            splatPosition buf g c -
              (∑ h ∈ Finset.range (numGaussians buf), splatPosition buf h c) /
                numGaussians buf := by
        intro g _
        simp [splatCentersFn]
      rw [Finset.sum_congr rfl hcong, centered_sum_zero _ _ hn]
      simp
    · intro g hg c
      rw [show (splatFileOfBuf buf true).centers
          = (List.range (numGaussians buf)).map (splatCentersFn buf true) from rfl]
      rw [getD_range_map _ _ hg]
      simp [splatCentersFn]
  · intro vs hv
    have hn : vs.length ≠ 0 := fun h => hv (List.length_eq_zero.mp h)
    refine ⟨load_ply_file_ok vs true hv, ?_, ?_⟩
    · intro c
      rw [meanVec, plyFileOfVerts_centers_true, List.map_map]
      rw [show ((fun v : Fin 3 → ℝ => v c) ∘ fun g i =>
            plyPosition (vs.getD g default) i -
              (∑ h ∈ Finset.range vs.length, plyPosition (vs.getD h default) i) /
                vs.length)
          = fun g => plyPosition (vs.getD g default) c -
              (∑ h ∈ Finset.range vs.length, plyPosition (vs.getD h default) c) /
                vs.length from rfl]
      rw [sum_map_range, centered_sum_zero _ _ hn]
      simp
    · intro g hg c
      rw [plyFileOfVerts_centers_true, getD_range_map _ _ hg]

/-- Witness for C8: the centered single-record all-zero packed buffer
and the centered one-vertex ply file both load successfully and have
componentwise-zero mean centers. -/
theorem C8_centering_witness :
    meanVec (splatFileOfBuf (List.replicate 32 0) true).centers 0 = 0 ∧
    load_splat_file (List.replicate 32 0) true
      = Except.ok (splatFileOfBuf (List.replicate 32 0) true) ∧
    meanVec (plyFileOfVerts [plyVertexA] true).centers 0 = 0 ∧
    load_ply_file [plyVertexA] true = Except.ok (plyFileOfVerts [plyVertexA] true) := by
  have hp := C8_centering.1 (List.replicate 32 0)
    (by norm_num [numGaussians, bytes_per_gaussian])
  have hq := C8_centering.2 [plyVertexA] (by simp)
  exact ⟨hp.2.1 0, hp.1 (by simp), hq.2.1 0, hq.1⟩

/-- C9 counterexample: `main` centers every loaded file unconditionally —
with the boolean flag set to `false` on the `.splat` file `exampleBuf64b`
(decoded positions x: 1.0 and 0.0), loading succeeds and emits first
center x = 1/2, the centered value, not the decoded position 1 that a
disabled centering flag would demand. -/
theorem C9_counterexample :
    mainLoadOne (InputFile.splat exampleBuf64b) false =
      Except.ok (splatFileOfBuf exampleBuf64b true) ∧
    (splatFileOfBuf exampleBuf64b true).centers.getD 0 default 0 = 1 / 2 ∧
    splatPosition exampleBuf64b 0 0 = 1 := by
  refine ⟨?_, ?_, ?_⟩
  · rw [mainLoadOne, load_splat_file, if_pos (by decide), if_neg (by decide)]
    rfl
  · rw [show (splatFileOfBuf exampleBuf64b true).centers.getD 0 default 0
        = splatCentersFn exampleBuf64b true 0 0 from rfl]
    simp only [splatCentersFn, if_true]
    rw [show numGaussians exampleBuf64b = 2 from rfl]
    rw [Finset.sum_range_succ, Finset.sum_range_succ, Finset.sum_range_zero]
    rw [show splatPosition exampleBuf64b 0 0 = decodeFloat32le 0 0 128 63 from rfl,
      show splatPosition exampleBuf64b 1 0 = decodeFloat32le 0 0 0 0 from rfl,
      decodeFloat32le_one, decodeFloat32le_zero]
    norm_num
  · rw [show splatPosition exampleBuf64b 0 0 = decodeFloat32le 0 0 128 63 from rfl,
      decodeFloat32le_one]

/-- C9 (amended): the entry point accepts a boolean flag
(`test_multisplat`), but no flag controls centering — the flag is never
read, and every file (packed or ply) is loaded with centering applied
unconditionally (`center=True`). -/
theorem C9_centering_unconditional :
    (∀ (files : List InputFile) (b : Bool), main files b = main files true) ∧
    (∀ (buf : List ℕ) (b : Bool),
      mainLoadOne (InputFile.splat buf) b =
        (load_splat_file buf true).mapError MainError.load) ∧
    (∀ (vs : List PlyVertex) (b : Bool),
      mainLoadOne (InputFile.ply vs) b =
        (load_ply_file vs true).mapError MainError.load) := by
  refine ⟨?_, fun buf b => rfl, fun vs b => rfl⟩
  intro files b
  have h : (fun f => mainLoadOne f b) = fun f => mainLoadOne f true := by
    funext f
    cases f <;> rfl
  rw [main, main, h]

end GaussianSplats
